import Mathlib

/-!
Verification of the file2minio upload orchestrator (src/main.py,
src/config/file_uploader.py) against its specification.

The orchestration code in `MinIOFileUploader` is embedded shallowly:
the minio client calls (`bucket_exists`, `make_bucket`, `fput_object`)
are modelled as environment-supplied outcomes, Python exceptions become
an explicit `Except` result, and the batch loop becomes a structural
recursion that additionally records, as a ghost trace, which items were
attempted and which gateway calls were issued.
-/

namespace File2Minio

/-- A Python exception escaping a minio client call.  `s3Error` models the
SDK's `S3Error` class (an S3 service error reply); `otherExn` models every
other exception class the call can raise (e.g. transport-level connectivity
errors from urllib3, which are not subclasses of `S3Error`). -/
inductive PyExn where
  | s3Error (msg : String)
  | otherExn (msg : String)
deriving DecidableEq

/-- The gateway calls `ensure_bucket_exists` can issue, for tracing. -/
inductive GatewayCall where
  | bucketExistsCall
  | makeBucketCall
deriving DecidableEq

/-- The state and failure behaviour of the object store as seen by one call
to `ensure_bucket_exists`: whether the bucket is present, and which
exception (if any) each of the two client calls would raise. -/
structure BucketGateway where
  present : Bool
  existsErr : Option PyExn
  makeErr : Option PyExn

/-- Result of one run of `ensure_bucket_exists`: the returned value (or the
escaping exception), the bucket presence afterwards, and the gateway calls
issued in order. -/
structure EnsureRun where
  result : Except PyExn Bool
  present : Bool
  calls : List GatewayCall

/-- `MinIOFileUploader.ensure_bucket_exists` (file_uploader.py lines 45-61).
The body calls `bucket_exists`, creates the bucket only when that returned
false, and its sole `except` clause catches `S3Error` (returning false);
any other exception class escapes. -/
def ensure_bucket_exists (g : BucketGateway) : EnsureRun :=
  match g.existsErr with
  | some (PyExn.s3Error _) =>
      { result := Except.ok false, present := g.present,
        calls := [GatewayCall.bucketExistsCall] }
  | some (PyExn.otherExn m) =>
      { result := Except.error (PyExn.otherExn m), present := g.present,
        calls := [GatewayCall.bucketExistsCall] }
  | none =>
      if g.present then
        { result := Except.ok true, present := true,
          calls := [GatewayCall.bucketExistsCall] }
      else
        match g.makeErr with
        | none =>
            { result := Except.ok true, present := true,
              calls := [GatewayCall.bucketExistsCall, GatewayCall.makeBucketCall] }
        | some (PyExn.s3Error _) =>
            { result := Except.ok false, present := false,
              calls := [GatewayCall.bucketExistsCall, GatewayCall.makeBucketCall] }
        | some (PyExn.otherExn m) =>
            { result := Except.error (PyExn.otherExn m), present := false,
              calls := [GatewayCall.bucketExistsCall, GatewayCall.makeBucketCall] }

/-- The result dictionary built by `upload_files_batch`
(file_uploader.py lines 119-124): keys total / success / failed /
failed_files. -/
structure BatchResults where
  total : Nat
  success : Nat
  failed : Nat
  failed_files : List (String × String)
deriving DecidableEq

/-- The loop of `upload_files_batch` (lines 128-133), over an
environment-supplied per-item upload outcome `up`.  Returns the final
results (or the exception, if `up` ever raised — the Python loop would
abort there) together with the ghost trace of items attempted in order. -/
def batchLoop (up : String → String → Except PyExn Bool) :
    List (String × String) → BatchResults →
    Except PyExn BatchResults × List (String × String)
  | [], r => (Except.ok r, [])
  | (l, rel) :: rest, r =>
    match up l rel with
    | Except.error e => (Except.error e, [(l, rel)])
    | Except.ok true =>
        let p := batchLoop up rest { r with success := r.success + 1 }
        (p.1, (l, rel) :: p.2)
    | Except.ok false =>
        let p := batchLoop up rest
          { r with failed := r.failed + 1,
                   failed_files := r.failed_files ++ [(l, rel)] }
        (p.1, (l, rel) :: p.2)

/-- `MinIOFileUploader.upload_files_batch` (lines 109-142): initialises the
result dictionary with `total = len(file_mappings)` and runs the loop. -/
def upload_files_batch (up : String → String → Except PyExn Bool)
    (file_mappings : List (String × String)) :
    Except PyExn BatchResults × List (String × String) :=
  batchLoop up file_mappings
    { total := file_mappings.length, success := 0, failed := 0, failed_files := [] }

/-- Replace a backslash by a forward slash, identity on other chars. -/
def backslashToSlash (c : Char) : Char :=
  if c = '\\' then '/' else c

/-- Separator normalization: every backslash becomes a forward slash. -/
def normalizeSlashes (s : String) : String :=
  ⟨s.data.map backslashToSlash⟩

/-- Does the string contain no backslash? -/
def noBackslash (s : String) : Bool :=
  s.data.all (fun c => !(c = '\\'))

/-- The extension of the final path component: scanning the reversed
character list, the chars up to and including the last dot, empty if a
slash (or the start) is reached first. -/
def revExt : List Char → List Char
  | [] => []
  | c :: rest =>
    if c = '.' then [c]
    else if c = '/' then []
    else
      let e := revExt rest
      if e = [] then [] else c :: e

/-- `os.path.splitext`-style extension of a path, e.g. ".pdf", or "". -/
def extOf (s : String) : String :=
  ⟨(revExt s.data.reverse).reverse⟩

/-- A calendar date, injectable for deterministic key derivation. -/
structure Date where
  year : Nat
  month : Nat
  day : Nat
deriving DecidableEq

/-- Decimal digits of `n` (most significant first), with fuel. -/
def decDigits : Nat → Nat → List Char
  | 0, _ => []
  | k + 1, n =>
    if n = 0 then [] else decDigits k (n / 10) ++ [Char.ofNat (48 + n % 10)]

/-- Decimal rendering of a natural number. -/
def natToDec (n : Nat) : String :=
  if n = 0 then "0" else ⟨decDigits n n⟩

/-- Left-pad with zeros to width `w`. -/
def padZero (w : Nat) (s : String) : String :=
  ⟨List.replicate (w - s.length) '0' ++ s.data⟩

/-- The `YYYYMMDD` partition segment of a date. -/
def formatDate (d : Date) : String :=
  padZero 4 (natToDec d.year) ++ padZero 2 (natToDec d.month) ++
    padZero 2 (natToDec d.day)

/-- One hex digit. -/
def hexDigit (d : Nat) : Char :=
  if d < 10 then Char.ofNat (48 + d) else Char.ofNat (87 + d)

/-- `k` hex digits of `n`, most significant first. -/
def toHexAux : Nat → Nat → List Char
  | 0, _ => []
  | k + 1, n => toHexAux k (n / 16) ++ [hexDigit (n % 16)]

/-- 32-hex-digit fixed-length rendering (the width of an MD5 digest). -/
def toHex32 (n : Nat) : String :=
  ⟨toHexAux 32 n⟩

/-- A deterministic 128-bit digest of a character list. -/
def digestNat (l : List Char) : Nat :=
  l.foldl (fun h c => (h * 131 + c.toNat) % (2 ^ 128)) 7

/-- The fixed-length hashed filename component of a path. -/
def hashName (s : String) : String :=
  toHex32 (digestNat s.data)

/-- Join path segments with forward slashes. -/
def joinSegs : List String → String
  | [] => ""
  | [s] => s
  | s :: rest => s ++ "/" ++ joinSegs rest

/-- Modelled from the spec: `generate_minio_object_key` lives in the
repository's `utils` module, which is imported by
src/config/file_uploader.py but is not among the provided sources.  Per
spec §4.1 (KeyCodec) it normalizes the relative path's separators to
forward slashes, formats the injectable date as `YYYYMMDD`, hashes the
normalized relative path with a fixed-length digest (MD5 or an equivalent
fixed-length digest — modelled here by `hashName`), preserves the original
file extension if present, and joins `basePrefix?/date/hashedName[.ext]`,
omitting the base prefix segment when it is empty. -/
def generate_minio_object_key (base_upload_path relative_path : String)
    (d : Date) : String :=
  let norm := normalizeSlashes relative_path
  let hashed := hashName norm ++ extOf norm
  joinSegs ((if base_upload_path = "" then [] else [base_upload_path]) ++
    [formatDate d, hashed])

/-- The environment of one `upload_file` call: the outcome of
`validate_file_path` per local path, the uploader's configured base
upload path and (injectable) current date, and the outcome of the
client's `fput_object` per (object key, local path). -/
structure UploadEnv where
  validate : String → Bool
  base_upload_path : String
  date : Date
  fput : String → String → Except PyExn Unit

/-- `MinIOFileUploader.upload_file` (file_uploader.py lines 63-107).  The
whole body sits in a `try`: a failed `validate_file_path` returns false;
otherwise the object key is derived and `fput_object` called; the
`except S3Error` and `except Exception` clauses both return false, so no
exception escapes. -/
def upload_file (env : UploadEnv) (local_file_path relative_path : String) :
    Except PyExn Bool :=
  if env.validate local_file_path then
    match env.fput
        (generate_minio_object_key env.base_upload_path relative_path env.date)
        local_file_path with
    | Except.ok _ => Except.ok true
    | Except.error (PyExn.s3Error _) => Except.ok false
    | Except.error (PyExn.otherExn _) => Except.ok false
  else Except.ok false

/-- The value `upload_file` returns (it always returns rather than raises;
see `upload_file_eq`). -/
def upload_fileB (env : UploadEnv) (local_file_path relative_path : String) :
    Bool :=
  if env.validate local_file_path then
    match env.fput
        (generate_minio_object_key env.base_upload_path relative_path env.date)
        local_file_path with
    | Except.ok _ => true
    | Except.error _ => false
  else false

/-- Join path components with the host separator `sep` (models
`os.path.relpath` / `os.path.join` output on a host whose separator is
`sep`: '/' on POSIX, a backslash on Windows). -/
def joinSep (sep : Char) : List String → String
  | [] => ""
  | [s] => s
  | s :: rest => s ++ String.singleton sep ++ joinSep sep rest

/-- The relative path `upload_directory` computes for one discovered file
(file_uploader.py lines 166-168): `rel_path = os.path.relpath(local,
dir)` — the file's components joined with the host separator — and, only
when `base_relative_path` is non-empty, `os.path.join(base_relative_path,
rel_path).replace(backslash, slash)`. -/
def rel_path_of (sep : Char) (base_relative_path : String)
    (comps : List String) : String :=
  let rel := joinSep sep comps
  if base_relative_path = "" then rel
  else normalizeSlashes (base_relative_path ++ String.singleton sep ++ rel)

/-- The `(local_path, rel_path)` mappings `upload_directory` builds from
the `os.walk` enumeration, one per discovered file, where each file is
given by its path components under the root. -/
def dir_file_mappings (sep : Char) (directory_path base_relative_path : String)
    (files : List (List String)) : List (String × String) :=
  files.map (fun comps =>
    (directory_path ++ String.singleton sep ++ joinSep sep comps,
     rel_path_of sep base_relative_path comps))

/-- `MinIOFileUploader.upload_directory` (file_uploader.py lines 144-172):
if `os.path.isdir` is false for the path (also when it is a regular file),
return the zeroed result dictionary at once; otherwise build the mappings
from the walk and delegate to `upload_files_batch`.  `isDir` and `files`
are the environment's answers for this path; the attempted-items ghost
trace is returned alongside. -/
def upload_directory (sep : Char) (isDir : Bool) (files : List (List String))
    (up : String → String → Except PyExn Bool)
    (directory_path base_relative_path : String) :
    Except PyExn BatchResults × List (String × String) :=
  if isDir then
    upload_files_batch up
      (dir_file_mappings sep directory_path base_relative_path files)
  else
    (Except.ok { total := 0, success := 0, failed := 0, failed_files := [] }, [])

/-- `s.split(sep, 1)[0:2]` as used in main.py line 106: split a character
list at the first colon; `none` when the string has no colon (in which
case the Python two-name unpacking raises `ValueError`). -/
def splitColonAux (acc : List Char) : List Char → Option (List Char × List Char)
  | [] => none
  | c :: rest =>
    if c = ':' then some (acc.reverse, rest) else splitColonAux (c :: acc) rest

/-- Split a `--files` entry `local_path:relative_path` at its first colon. -/
def splitColon (s : String) : Option (String × String) :=
  match splitColonAux [] s.data with
  | none => none
  | some (l, r) => some (⟨l⟩, ⟨r⟩)

/-- The mapping-construction loop of main.py's batch mode (lines 103-114):
each entry is split at the first colon (`none` overall when an entry is
malformed, mirroring the `ValueError` branch that returns at once), and
entries whose local path does not exist are skipped. -/
def buildMappings (fileExists : String → Bool) :
    List String → Option (List (String × String))
  | [] => some []
  | s :: rest =>
    match splitColon s with
    | none => none
    | some (l, r) =>
      if fileExists l then
        (buildMappings fileExists rest).map (fun ms => (l, r) :: ms)
      else buildMappings fileExists rest

/-- The batch results when every per-item outcome is the boolean `up`. -/
def runBatchPure (up : String → String → Bool)
    (ms : List (String × String)) : BatchResults :=
  match upload_files_batch (fun l r => Except.ok (up l r)) ms with
  | (Except.ok r, _) => r
  | (Except.error _, _) => { total := 0, success := 0, failed := 0, failed_files := [] }

/-- The batch branch of `main` in src/main.py (lines 97-120): fail when no
`--files` entries were given, build the mappings (failing on a malformed
entry), fail when no valid mappings remain, otherwise run the batch and
succeed iff no item failed.  Returns the overall boolean outcome (exit
code 0 iff true) and the batch results when a batch ran. -/
def main_batch (fileExists : String → Bool) (up : String → String → Bool)
    (files : List String) : Bool × Option BatchResults :=
  if files = [] then (false, none)
  else
    match buildMappings fileExists files with
    | none => (false, none)
    | some [] => (false, none)
    | some ms =>
      let r := runBatchPure up ms
      (r.failed = 0, some r)

/-- The valid entries of a `--files` list: those that split at a colon and
whose local path exists. -/
def validEntries (fileExists : String → Bool) (files : List String) :
    List (String × String) :=
  files.filterMap (fun s =>
    match splitColon s with
    | none => none
    | some (l, r) => if fileExists l then some (l, r) else none)

/-- Does `s` end with `suf`? -/
def strEndsWith (s suf : String) : Bool :=
  decide (suf.data <:+ s.data)

/-- Test environment for the three-item batch scenario: every local file
validates except "missing2", and the gateway accepts every put. -/
def envC1 : UploadEnv :=
  { validate := fun p => !(p == "missing2"),
    base_upload_path := "",
    date := { year := 2025, month := 9, day := 4 },
    fput := fun _ _ => Except.ok () }

/-- A three-item batch whose second item's local file is missing. -/
def itemsC1 : List (String × String) :=
  [("file1", "rel1"), ("missing2", "rel2"), ("file3", "rel3")]

/-- A gateway whose bucket-exists call raises a non-`S3Error` exception
(a transport-level connectivity failure). -/
def gConnFail : BucketGateway :=
  { present := false,
    existsErr := some (PyExn.otherExn "connection refused"),
    makeErr := none }

/-- A gateway whose bucket-exists call raises an `S3Error`. -/
def gS3Fail : BucketGateway :=
  { present := false,
    existsErr := some (PyExn.s3Error "AccessDenied"),
    makeErr := none }

/-! ### Helper lemmas -/

/-- Every branch of `upload_file` returns: it is `Except.ok` of the
boolean `upload_fileB`. -/
theorem upload_file_eq (env : UploadEnv) (l r : String) :
    upload_file env l r = Except.ok (upload_fileB env l r) := by
  unfold upload_file upload_fileB
  by_cases h : env.validate l = true
  · simp only [h, if_true]
    cases hf : env.fput
        (generate_minio_object_key env.base_upload_path r env.date) l with
    | ok u => rfl
    | error e => cases e <;> rfl
  · simp only [h, if_false, Bool.false_eq_true]

/-- `upload_file env`, as a function, equals the ok-lifting of
`upload_fileB env`. -/
theorem upload_file_funext (env : UploadEnv) :
    upload_file env = fun l r => Except.ok (upload_fileB env l r) := by
  funext l r
  exact upload_file_eq env l r

/-- Closed form of the batch loop when the per-item outcome never raises:
it returns ok, attempts every item in order, keeps `total`, and adds the
success / failure counts and the ordered failed items to the accumulator. -/
theorem batchLoop_pure (f : String → String → Bool)
    (ms : List (String × String)) (r : BatchResults) :
    batchLoop (fun l rel => Except.ok (f l rel)) ms r =
      (Except.ok
        { total := r.total,
          success := r.success + (ms.filter (fun p => f p.1 p.2)).length,
          failed := r.failed + (ms.filter (fun p => !f p.1 p.2)).length,
          failed_files := r.failed_files ++ ms.filter (fun p => !f p.1 p.2) },
       ms) := by
  induction ms generalizing r with
  | nil => simp [batchLoop]
  | cons hd tl ih =>
    obtain ⟨l, rel⟩ := hd
    by_cases h : f l rel = true
    · simp [batchLoop, h, ih]
      omega
    · simp only [Bool.not_eq_true] at h
      simp [batchLoop, h, ih]
      omega

/-- Closed form of `upload_files_batch` for a non-raising per-item
outcome. -/
theorem upload_files_batch_pure (f : String → String → Bool)
    (ms : List (String × String)) :
    upload_files_batch (fun l rel => Except.ok (f l rel)) ms =
      (Except.ok
        { total := ms.length,
          success := (ms.filter (fun p => f p.1 p.2)).length,
          failed := (ms.filter (fun p => !f p.1 p.2)).length,
          failed_files := ms.filter (fun p => !f p.1 p.2) },
       ms) := by
  unfold upload_files_batch
  rw [batchLoop_pure]
  simp

/-! ### Claim theorems -/

/-- C5: for every per-item outcome environment and every item sequence,
`upload_files_batch` returns total = number of items, success = number of
items whose upload returned true, failed = number whose upload returned
false, and failed_files = exactly the failed items in input order. -/
theorem batch_result_invariants (env : UploadEnv) (ms : List (String × String)) :
    upload_files_batch (upload_file env) ms =
      (Except.ok
        { total := ms.length,
          success := (ms.filter (fun p => upload_fileB env p.1 p.2)).length,
          failed := (ms.filter (fun p => !upload_fileB env p.1 p.2)).length,
          failed_files := ms.filter (fun p => !upload_fileB env p.1 p.2) },
       ms) := by
  rw [upload_file_funext]
  exact upload_files_batch_pure (upload_fileB env) ms

/-- C1: `upload_files_batch` attempts every item in input order and never
aborts (one item's failure cannot prevent the next from being attempted),
and on the concrete three-item batch where only the second item's local
file is missing it returns total 3, success 2, failed 1, with exactly the
second item recorded as failed. -/
theorem batch_isolation :
    (∀ (env : UploadEnv) (ms : List (String × String)),
      (upload_files_batch (upload_file env) ms).2 = ms ∧
      ∃ r, (upload_files_batch (upload_file env) ms).1 = Except.ok r) ∧
    upload_files_batch (upload_file envC1) itemsC1 =
      (Except.ok
        { total := 3, success := 2, failed := 1,
          failed_files := [("missing2", "rel2")] },
       itemsC1) := by
  constructor
  · intro env ms
    rw [upload_file_funext, upload_files_batch_pure]
    exact ⟨rfl, _, rfl⟩
  · rfl

/-- C2: `upload_file` never raises: for every environment (local path
validating or not, every gateway outcome of the put) it returns a
boolean, which is true exactly when validation passed and the put
succeeded; consequently no error propagates out of `upload_files_batch`
or `upload_directory` either. -/
theorem upload_one_never_throws (env : UploadEnv) (l r : String) :
    upload_file env l r = Except.ok (upload_fileB env l r) ∧
    (upload_fileB env l r = true ↔
      (env.validate l = true ∧
       ∃ u, env.fput
          (generate_minio_object_key env.base_upload_path r env.date) l =
            Except.ok u)) ∧
    (∀ ms, ∃ res, (upload_files_batch (upload_file env) ms).1 = Except.ok res) ∧
    (∀ (sep : Char) (isDir : Bool) (files : List (List String)) (dp br : String),
      ∃ res, (upload_directory sep isDir files (upload_file env) dp br).1 =
        Except.ok res) := by
  refine ⟨upload_file_eq env l r, ?_, ?_, ?_⟩
  · unfold upload_fileB
    by_cases h : env.validate l = true
    · simp only [h, if_true, true_and]
      cases hf : env.fput
          (generate_minio_object_key env.base_upload_path r env.date) l with
      | ok u => simp
      | error e => simp
    · simp [h]
  · intro ms
    rw [upload_file_funext, upload_files_batch_pure]
    exact ⟨_, rfl⟩
  · intro sep isDir files dp br
    unfold upload_directory
    cases isDir with
    | true =>
      simp only [if_true]
      rw [upload_file_funext, upload_files_batch_pure]
      exact ⟨_, rfl⟩
    | false => exact ⟨_, rfl⟩

/-- C7: for every path that is not a directory, `upload_directory` returns
the zeroed results without raising and attempts no upload. -/
theorem upload_directory_non_dir (sep : Char) (isDir : Bool)
    (files : List (List String))
    (up : String → String → Except PyExn Bool) (dp br : String)
    (h : isDir = false) :
    upload_directory sep isDir files up dp br =
      (Except.ok { total := 0, success := 0, failed := 0, failed_files := [] },
       []) := by
  subst h
  rfl

/-- Witness for C7 at concrete inputs. -/
theorem upload_directory_non_dir_witness :
    upload_directory '/' false [["a.txt"]]
        (fun _ _ => Except.ok true) "/tmp/afile" "" =
      (Except.ok { total := 0, success := 0, failed := 0, failed_files := [] },
       []) :=
  upload_directory_non_dir '/' false [["a.txt"]]
    (fun _ _ => Except.ok true) "/tmp/afile" "" rfl

/-- C6: from any gateway state in which the bucket exists,
`ensure_bucket_exists` performs only the bucket-exists check and never
invokes the create-bucket call; and after any call that returned true, a
second call in succession never invokes create-bucket, so an
already-existing bucket is never created twice. -/
theorem ensure_bucket_idempotent :
    (∀ g : BucketGateway, g.present = true →
      (ensure_bucket_exists g).calls = [GatewayCall.bucketExistsCall] ∧
      GatewayCall.makeBucketCall ∉ (ensure_bucket_exists g).calls) ∧
    (∀ g g2 : BucketGateway,
      (ensure_bucket_exists g).result = Except.ok true →
      g2.present = (ensure_bucket_exists g).present →
      GatewayCall.makeBucketCall ∉ (ensure_bucket_exists g2).calls) := by
  have key : ∀ g : BucketGateway, g.present = true →
      (ensure_bucket_exists g).calls = [GatewayCall.bucketExistsCall] := by
    intro g hp
    unfold ensure_bucket_exists
    match he : g.existsErr with
    | some (PyExn.s3Error m) => rfl
    | some (PyExn.otherExn m) => rfl
    | none => simp [hp]
  have post : ∀ g : BucketGateway,
      (ensure_bucket_exists g).result = Except.ok true →
      (ensure_bucket_exists g).present = true := by
    intro g hr
    unfold ensure_bucket_exists at hr ⊢
    match he : g.existsErr with
    | some (PyExn.s3Error m) => simp [he] at hr
    | some (PyExn.otherExn m) => simp [he] at hr
    | none =>
      simp only [he] at hr ⊢
      by_cases hp : g.present = true
      · simp [hp]
      · simp only [Bool.not_eq_true] at hp
        simp only [hp, Bool.false_eq_true, if_false] at hr ⊢
        match hm : g.makeErr with
        | none => simp
        | some (PyExn.s3Error m) => simp [hm] at hr
        | some (PyExn.otherExn m) => simp [hm] at hr
  constructor
  · intro g hp
    refine ⟨key g hp, ?_⟩
    rw [key g hp]
    simp
  · intro g g2 hr hp
    rw [key g2 (hp.trans (post g hr))]
    simp

/-- Witness for C6 at concrete gateways: the bucket was created by the
first call, and the second call issues no create-bucket call. -/
theorem ensure_bucket_idempotent_witness :
    GatewayCall.makeBucketCall ∉
      (ensure_bucket_exists
        { present := true, existsErr := none, makeErr := none }).calls :=
  ensure_bucket_idempotent.2
    { present := false, existsErr := none, makeErr := none }
    { present := true, existsErr := none, makeErr := none }
    rfl rfl

/-- C3 counterexample: when the bucket-exists call raises a
non-`S3Error` exception (a transport-level connectivity failure),
`ensure_bucket_exists` does not return false — the exception escapes. -/
theorem ensure_bucket_throws_counterexample :
    (ensure_bucket_exists gConnFail).result =
      Except.error (PyExn.otherExn "connection refused") ∧
    (ensure_bucket_exists gConnFail).result ≠ Except.ok false := by
  constructor
  · rfl
  · intro h
    cases h

/-- C3 amended: `ensure_bucket_exists` returns a boolean without raising
whenever every exception the two gateway calls raise is an `S3Error` (the
only class its except clause catches), and it returns false when such a
failure occurred; exceptions of other classes escape
(`ensure_bucket_throws_counterexample`). -/
theorem ensure_bucket_no_throw_on_s3 (g : BucketGateway)
    (h1 : ∀ e, g.existsErr = some e → ∃ m, e = PyExn.s3Error m)
    (h2 : ∀ e, g.makeErr = some e → ∃ m, e = PyExn.s3Error m) :
    ∃ b, (ensure_bucket_exists g).result = Except.ok b ∧
      ((g.existsErr ≠ none ∨ (g.present = false ∧ g.makeErr ≠ none)) →
        b = false) := by
  unfold ensure_bucket_exists
  match he : g.existsErr with
  | some (PyExn.s3Error m) => exact ⟨false, rfl, fun _ => rfl⟩
  | some (PyExn.otherExn m) =>
    obtain ⟨m2, hm2⟩ := h1 (PyExn.otherExn m) he
    cases hm2
  | none =>
    by_cases hp : g.present = true
    · refine ⟨true, by simp [hp], ?_⟩
      intro hcase
      rcases hcase with hl | ⟨hpf, _⟩
      · exact absurd rfl hl
      · rw [hp] at hpf
        cases hpf
    · simp only [Bool.not_eq_true] at hp
      simp only [hp, Bool.false_eq_true, if_false]
      match hm : g.makeErr with
      | none =>
        refine ⟨true, rfl, ?_⟩
        intro hcase
        rcases hcase with hl | ⟨_, hr⟩
        · exact absurd rfl hl
        · exact absurd rfl hr
      | some (PyExn.s3Error m) => exact ⟨false, rfl, fun _ => rfl⟩
      | some (PyExn.otherExn m) =>
        obtain ⟨m2, hm2⟩ := h2 (PyExn.otherExn m) hm
        cases hm2

/-- Witness for the amended C3 at a concrete gateway whose bucket-exists
call raises an `S3Error`. -/
theorem ensure_bucket_no_throw_on_s3_witness :
    ∃ b, (ensure_bucket_exists gS3Fail).result = Except.ok b ∧
      ((gS3Fail.existsErr ≠ none ∨
        (gS3Fail.present = false ∧ gS3Fail.makeErr ≠ none)) → b = false) :=
  ensure_bucket_no_throw_on_s3 gS3Fail
    (fun e he => ⟨"AccessDenied", by
      have : some (PyExn.s3Error "AccessDenied") = some e := he
      cases this
      rfl⟩)
    (fun e he => by cases he)

/-- `normalizeSlashes` output never contains a backslash. -/
theorem noBackslash_normalizeSlashes (s : String) :
    noBackslash (normalizeSlashes s) = true := by
  unfold noBackslash normalizeSlashes
  simp only [List.all_map, List.all_eq_true, Function.comp]
  intro c _
  unfold backslashToSlash
  by_cases h : c = '\\'
  · simp [h]
  · simp [h]

/-- C4 counterexample: on a host whose separator is the backslash (the
Windows convention) and with an empty `base_relative_path`, the relative
path `upload_directory` computes for the file a\b.txt keeps its
backslash — the `.replace` normalization runs only inside the non-empty
branch — so the claim that every enumerated relative path uses
forward-slash separators regardless of host convention fails. -/
theorem relpath_backslash_counterexample :
    rel_path_of '\\' "" ["a", "b.txt"] = "a\\b.txt" ∧
    noBackslash (rel_path_of '\\' "" ["a", "b.txt"]) = false := by
  constructor
  · rfl
  · rfl

/-- C4 amended: `upload_directory`'s per-file relative path is prefixed
with `base_relative_path` exactly when the latter is non-empty, and the
forward-slash normalization happens exactly in that case: with an empty
base prefix the host-separator-joined relative path is returned unchanged
(keeping backslashes on a backslash host,
`relpath_backslash_counterexample`), while with a non-empty base prefix
the joined, prefixed path is normalized and contains no backslash. -/
theorem relpath_normalization (sep : Char) (base : String)
    (comps : List String) :
    (base = "" → rel_path_of sep base comps = joinSep sep comps) ∧
    (base ≠ "" →
      rel_path_of sep base comps =
        normalizeSlashes (base ++ String.singleton sep ++ joinSep sep comps) ∧
      noBackslash (rel_path_of sep base comps) = true) := by
  constructor
  · intro h
    unfold rel_path_of
    simp [h]
  · intro h
    unfold rel_path_of
    rw [if_neg h]
    exact ⟨rfl, noBackslash_normalizeSlashes _⟩

/-- Witness for the amended C4 at concrete inputs: with a non-empty base
prefix on a backslash host the produced relative path is fully
normalized. -/
theorem relpath_normalization_witness :
    noBackslash (rel_path_of '\\' "backup" ["a", "b.txt"]) = true :=
  ((relpath_normalization '\\' "backup" ["a", "b.txt"]).2 (by decide)).2

/-- Strings with equal character data are equal. -/
theorem stringDataEq (s t : String) (h : s.data = t.data) : s = t := by
  cases s
  cases t
  exact congrArg String.mk h

/-- `revExt` on a reversed path ending (originally) in ".pdf" stops at
that dot. -/
theorem revExt_pdf (t : List Char) :
    revExt ('f' :: 'd' :: 'p' :: '.' :: t) = ['f', 'd', 'p', '.'] := by
  simp [revExt]

/-- A path ending in ".pdf" keeps exactly that extension after separator
normalization. -/
theorem extOf_pdf (rp : String)
    (h : (".pdf".data : List Char) <:+ rp.data) :
    extOf (normalizeSlashes rp) = ".pdf" := by
  obtain ⟨pre, hpre⟩ := h
  apply stringDataEq
  show (revExt (rp.data.map backslashToSlash).reverse).reverse = _
  rw [← hpre]
  have hd : (".pdf".data : List Char) = ['.', 'p', 'd', 'f'] := by decide
  rw [hd, List.map_append, List.reverse_append]
  have hm : (['.', 'p', 'd', 'f'] : List Char).map backslashToSlash =
      ['.', 'p', 'd', 'f'] := by decide
  rw [hm]
  have hrev : (['.', 'p', 'd', 'f'] : List Char).reverse =
      ['f', 'd', 'p', '.'] := by decide
  rw [hrev]
  rw [show ('f' :: 'd' :: 'p' :: '.' :: []) ++ (pre.map backslashToSlash).reverse =
      'f' :: 'd' :: 'p' :: '.' :: (pre.map backslashToSlash).reverse from rfl]
  rw [revExt_pdf]
  decide

/-- C8: `generate_minio_object_key` is deterministic and pure — equal
`(basePrefix, relativePath, date)` inputs always produce the same object
key. -/
theorem key_deterministic (bp rp : String) (d : Date)
    (bp2 rp2 : String) (d2 : Date)
    (h1 : bp = bp2) (h2 : rp = rp2) (h3 : d = d2) :
    generate_minio_object_key bp rp d = generate_minio_object_key bp2 rp2 d2 := by
  subst h1
  subst h2
  subst h3
  rfl

/-- Witness for C8 at concrete inputs. -/
theorem key_deterministic_witness :
    generate_minio_object_key "docs" "a/b.pdf" { year := 2025, month := 9, day := 4 } =
      generate_minio_object_key "docs" "a/b.pdf" { year := 2025, month := 9, day := 4 } :=
  key_deterministic "docs" "a/b.pdf" { year := 2025, month := 9, day := 4 }
    "docs" "a/b.pdf" { year := 2025, month := 9, day := 4 } rfl rfl rfl

/-- C9: the derived object key has the form
basePrefix/YYYYMMDD/hashedName.ext with the basePrefix segment omitted
when empty, and a relative path ending in ".pdf" yields a key ending in
".pdf". -/
theorem key_format (bp rp : String) (d : Date) :
    generate_minio_object_key bp rp d =
      (if bp = "" then "" else bp ++ "/") ++ formatDate d ++ "/" ++
        (hashName (normalizeSlashes rp) ++ extOf (normalizeSlashes rp)) ∧
    (strEndsWith rp ".pdf" = true →
      strEndsWith (generate_minio_object_key bp rp d) ".pdf" = true) := by
  have hform : generate_minio_object_key bp rp d =
      (if bp = "" then "" else bp ++ "/") ++ formatDate d ++ "/" ++
        (hashName (normalizeSlashes rp) ++ extOf (normalizeSlashes rp)) := by
    unfold generate_minio_object_key
    apply stringDataEq
    by_cases hbp : bp = ""
    · simp [hbp, joinSegs, String.data_append]
    · simp [hbp, joinSegs, String.data_append, List.append_assoc]
  refine ⟨hform, ?_⟩
  intro h
  have hsuf : (".pdf".data : List Char) <:+ rp.data := of_decide_eq_true h
  have hext : extOf (normalizeSlashes rp) = ".pdf" := extOf_pdf rp hsuf
  rw [hform, hext]
  apply decide_eq_true
  have hd : (".pdf".data : List Char) = ['.', 'p', 'd', 'f'] := by decide
  rw [hd]
  simp only [String.data_append, ← List.append_assoc]
  exact List.suffix_append _ _

/-- Witness for C9 at concrete inputs: the key of a ".pdf" path ends in
".pdf". -/
theorem key_format_witness :
    strEndsWith
      (generate_minio_object_key "docs" "a/b.pdf"
        { year := 2025, month := 9, day := 4 }) ".pdf" = true :=
  (key_format "docs" "a/b.pdf" { year := 2025, month := 9, day := 4 }).2
    (by decide)

/-- Every valid `--files` entry has an existing local path. -/
theorem validEntries_exists (fe : String → Bool) (files : List String) :
    ∀ p ∈ validEntries fe files, fe p.1 = true := by
  intro p hp
  unfold validEntries at hp
  rw [List.mem_filterMap] at hp
  obtain ⟨s, _, hs⟩ := hp
  cases hsp : splitColon s with
  | none => rw [hsp] at hs; cases hs
  | some lr =>
    obtain ⟨l, r⟩ := lr
    rw [hsp] at hs
    by_cases hfe : fe l = true
    · simp only [hfe, if_true] at hs
      cases hs
      exact hfe
    · simp only [hfe, if_false, Bool.false_eq_true] at hs
      cases hs

/-- When every entry splits at a colon, the mapping-construction loop
returns exactly the valid entries. -/
theorem buildMappings_wf (fe : String → Bool) (files : List String)
    (h : ∀ s ∈ files, (splitColon s).isSome = true) :
    buildMappings fe files = some (validEntries fe files) := by
  induction files with
  | nil => rfl
  | cons s rest ih =>
    have hs : (splitColon s).isSome = true := h s (List.mem_cons_self s rest)
    have hr : ∀ x ∈ rest, (splitColon x).isSome = true := fun x hx =>
      h x (List.mem_cons_of_mem s hx)
    unfold buildMappings
    cases hsp : splitColon s with
    | none => rw [hsp] at hs; cases hs
    | some lr =>
      obtain ⟨l, r⟩ := lr
      rw [ih hr]
      by_cases hfe : fe l = true
      · simp [validEntries, List.filterMap_cons, hsp, hfe]
      · simp [validEntries, List.filterMap_cons, hsp, hfe]

/-- Closed form of the pure batch run. -/
theorem runBatchPure_spec (up : String → String → Bool)
    (ms : List (String × String)) :
    runBatchPure up ms =
      { total := ms.length,
        success := (ms.filter (fun p => up p.1 p.2)).length,
        failed := (ms.filter (fun p => !up p.1 p.2)).length,
        failed_files := ms.filter (fun p => !up p.1 p.2) } := by
  unfold runBatchPure
  rw [upload_files_batch_pure]

/-- C10: in batch CLI mode (with well-formed entries), entries whose
local path does not exist are dropped before the batch starts: the batch
runs over exactly the valid entries, so skipped entries appear in neither
the total nor the failed-files list (every recorded failure has an
existing local path), the run succeeds — exit code 0 — exactly when every
remaining entry uploads, even if entries were skipped, and the run fails
with no batch at all exactly when no valid entries remain. -/
theorem batch_cli_skips_missing (fe : String → Bool)
    (up : String → String → Bool) (files : List String)
    (h : ∀ s ∈ files, (splitColon s).isSome = true) :
    (validEntries fe files = [] → main_batch fe up files = (false, none)) ∧
    (validEntries fe files ≠ [] → ∃ r,
      main_batch fe up files = (decide (r.failed = 0), some r) ∧
      r.total = (validEntries fe files).length ∧
      r.failed_files = (validEntries fe files).filter (fun p => !up p.1 p.2) ∧
      (∀ p ∈ r.failed_files, fe p.1 = true) ∧
      (r.failed = 0 ↔ ∀ p ∈ validEntries fe files, up p.1 p.2 = true)) := by
  constructor
  · intro hempty
    unfold main_batch
    by_cases hf : files = []
    · rw [if_pos hf]
    · rw [if_neg hf, buildMappings_wf fe files h, hempty]
  · intro hne
    refine ⟨runBatchPure up (validEntries fe files), ?_, ?_, ?_, ?_, ?_⟩
    · unfold main_batch
      have hf : files ≠ [] := by
        intro hh
        apply hne
        rw [hh]
        rfl
      rw [if_neg hf, buildMappings_wf fe files h]
      cases hv : validEntries fe files with
      | nil => exact absurd hv hne
      | cons a as => rfl
    · rw [runBatchPure_spec]
    · rw [runBatchPure_spec]
    · rw [runBatchPure_spec]
      intro p hp
      exact validEntries_exists fe files p (List.mem_of_mem_filter hp)
    · rw [runBatchPure_spec]
      simp only [List.length_eq_zero, List.filter_eq_nil_iff]
      constructor
      · intro hall p hp
        have := hall p hp
        simpa using this
      · intro hall p hp
        simp [hall p hp]

/-- Witness for C10 at concrete inputs: the entry gone:y is skipped
(its local path does not exist), yet the batch over the remaining two
entries runs and the whole invocation succeeds. -/
theorem batch_cli_skips_missing_witness :
    ∃ r,
      main_batch (fun s => !(s == "gone")) (fun _ _ => true)
          ["a:x", "gone:y", "b:z"] = (decide (r.failed = 0), some r) ∧
      r.total = (validEntries (fun s => !(s == "gone"))
          ["a:x", "gone:y", "b:z"]).length ∧
      r.failed_files = (validEntries (fun s => !(s == "gone"))
          ["a:x", "gone:y", "b:z"]).filter (fun p => !(fun _ _ => true) p.1 p.2) ∧
      (∀ p ∈ r.failed_files, (fun s => !(s == "gone")) p.1 = true) ∧
      (r.failed = 0 ↔ ∀ p ∈ validEntries (fun s => !(s == "gone"))
          ["a:x", "gone:y", "b:z"], (fun _ _ => true) p.1 p.2 = true) :=
  (batch_cli_skips_missing (fun s => !(s == "gone")) (fun _ _ => true)
    ["a:x", "gone:y", "b:z"] (by decide)).2 (by decide)

end File2Minio
